import Mathlib

/-!
Verification of the ingestion scripts of the repository
`-API-to-Data-Lake-Python-DLT-and-Azure-Data-Factory`.

The three scripts (`01_simple_pipeline.py`, `02_incremental_load.py`,
`bigquery_pipeline.py`) fetch JSON from the JSONPlaceholder API, reshape
the nested records into flat rows and hand them to the dlt library.
This file gives a shallow embedding of the record shapes, the extractor
functions, the HTTP status handling, the BigQuery configuration reads and
the main control flow, and proves the specified properties about them.

HTTP effects are modelled by passing the response (or a request-to-response
oracle) as an argument and returning, next to the result, the list of
requests the function issued.  A Python function that can raise is
embedded as a function into `Except`.
-/

namespace Ingest

/-! ### JSON data model

The shapes of the JSONPlaceholder `users` and `posts` records, as the
scripts project them (`user['address']['geo']['lat']` etc.). -/

structure Geo where
  lat : String
  lng : String
deriving Repr, DecidableEq

structure Address where
  street : String
  suite : String
  city : String
  zipcode : String
  geo : Geo
deriving Repr, DecidableEq

structure Company where
  name : String
  catchPhrase : String
  bs : String
deriving Repr, DecidableEq

structure User where
  id : Int
  name : String
  username : String
  email : String
  phone : String
  website : String
  address : Address
  company : Company
deriving Repr, DecidableEq

structure Post where
  id : Int
  userId : Int
  title : String
  body : String
deriving Repr, DecidableEq

/-! ### HTTP model -/

inductive Method where
  | GET
deriving Repr, DecidableEq

structure HttpRequest where
  method : Method
  url : String
deriving Repr, DecidableEq

/-- A response whose JSON body has already been decoded to `β`. -/
structure HttpResponse (β : Type) where
  status : Nat
  body : β
deriving Repr, DecidableEq

def usersURL : String := "https://jsonplaceholder.typicode.com/users"

def postsURL : String := "https://jsonplaceholder.typicode.com/posts"

/-- `response.raise_for_status()` of the `requests` library: it raises
`HTTPError` exactly for client errors (4xx) and server errors (5xx),
i.e. for a status code in `[400, 600)`. -/
def raise_for_status (status : Nat) : Except Nat Unit :=
  if 400 ≤ status ∧ status < 600 then .error status else .ok ()

/-- The status range in which `raise_for_status` raises. -/
def raisesOn (status : Nat) : Prop := 400 ≤ status ∧ status < 600

instance (s : Nat) : Decidable (raisesOn s) := by
  unfold raisesOn; infer_instance

/-- A 2xx (success) status. -/
def is2xx (status : Nat) : Prop := 200 ≤ status ∧ status < 300

instance (s : Nat) : Decidable (is2xx s) := by
  unfold is2xx; infer_instance

/-! ### `02_incremental_load.py`: `load_posts_incremental` -/

/-- The flat row yielded by `load_posts_incremental`. -/
structure IncPostRow where
  post_id : Int
  user_id : Int
  title : String
  body : String
  loaded_at : String
deriving Repr, DecidableEq

/-- The reshaping of one post inside `load_posts_incremental`'s loop;
`loaded_at` carries `datetime.now().isoformat()`, passed in as `now`. -/
def incPostRow (now : String) (p : Post) : IncPostRow :=
  { post_id := p.id
  , user_id := p.userId
  , title := p.title
  , body := p.body
  , loaded_at := now }

/-- `load_posts_incremental` of `02_incremental_load.py`: one GET to the
posts endpoint, `raise_for_status`, then
`new_posts = [p for p in posts if p['id'] > last_post_id.last_value]`
and a yield of the flat row for each new post.  The function returns the
requests it issued together with the yielded rows (or the raised status). -/
def load_posts_incremental (last_value : Int) (now : String)
    (http : HttpRequest → HttpResponse (List Post)) :
    List HttpRequest × Except Nat (List IncPostRow) :=
  let req : HttpRequest := ⟨Method.GET, postsURL⟩
  let resp := http req
  ([req],
    match raise_for_status resp.status with
    | .error e => .error e
    | .ok _ =>
        let new_posts := resp.body.filter (fun p => last_value < p.id)
        .ok (new_posts.map (incPostRow now)))

/-- Modelled from the spec: the incremental-state persistence lives in the
external dlt library, not in the repository.  Per the spec, the library
"advance[s] the mark to the maximum identifier seen" after processing:
the stored cursor becomes the maximum of the tracked field (`post_id`)
over the yielded rows, the previous cursor standing when nothing is
yielded. -/
def advanceCursor (last : Int) (rows : List IncPostRow) : Int :=
  rows.foldl (fun acc r => max acc r.post_id) last

/-! ### `01_simple_pipeline.py`: `load_users` and `load_posts` -/

/-- The flat row yielded by `load_users` of `01_simple_pipeline.py`. -/
structure FlatUser where
  user_id : Int
  name : String
  username : String
  email : String
  phone : String
  website : String
  street : String
  suite : String
  city : String
  zipcode : String
  latitude : String
  longitude : String
  company_name : String
  company_catchphrase : String
  company_bs : String
deriving Repr, DecidableEq

/-- The reshaping of one user inside `load_users`'s loop
(`01_simple_pipeline.py`, lines 46-62). -/
def flattenUser (u : User) : FlatUser :=
  { user_id := u.id
  , name := u.name
  , username := u.username
  , email := u.email
  , phone := u.phone
  , website := u.website
  , street := u.address.street
  , suite := u.address.suite
  , city := u.address.city
  , zipcode := u.address.zipcode
  , latitude := u.address.geo.lat
  , longitude := u.address.geo.lng
  , company_name := u.company.name
  , company_catchphrase := u.company.catchPhrase
  , company_bs := u.company.bs }

/-- `load_users` of `01_simple_pipeline.py`: one GET to the users endpoint,
`raise_for_status`, then one flattened row yielded per user. -/
def load_users (http : HttpRequest → HttpResponse (List User)) :
    List HttpRequest × Except Nat (List FlatUser) :=
  let req : HttpRequest := ⟨Method.GET, usersURL⟩
  let resp := http req
  ([req],
    match raise_for_status resp.status with
    | .error e => .error e
    | .ok _ => .ok (resp.body.map flattenUser))

/-- The flat row yielded by `load_posts` of `01_simple_pipeline.py`. -/
structure FlatPost where
  post_id : Int
  user_id : Int
  title : String
  body : String
deriving Repr, DecidableEq

/-- The reshaping of one post inside `load_posts`'s loop. -/
def flattenPost (p : Post) : FlatPost :=
  { post_id := p.id, user_id := p.userId, title := p.title, body := p.body }

/-- `load_posts` of `01_simple_pipeline.py`. -/
def load_posts (http : HttpRequest → HttpResponse (List Post)) :
    List HttpRequest × Except Nat (List FlatPost) :=
  let req : HttpRequest := ⟨Method.GET, postsURL⟩
  let resp := http req
  ([req],
    match raise_for_status resp.status with
    | .error e => .error e
    | .ok _ => .ok (resp.body.map flattenPost))

/-! ### `02_incremental_load.py`: `load_users_with_timestamp` -/

/-- The flat row yielded by `load_users_with_timestamp`. -/
structure TimedUserRow where
  user_id : Int
  name : String
  username : String
  email : String
  city : String
  company_name : String
  loaded_at : String
  updated_at : String
deriving Repr, DecidableEq

/-- The reshaping of one user inside `load_users_with_timestamp`'s loop;
both timestamp fields carry `datetime.now().isoformat()`, passed as `now`. -/
def timedUserRow (now : String) (u : User) : TimedUserRow :=
  { user_id := u.id
  , name := u.name
  , username := u.username
  , email := u.email
  , city := u.address.city
  , company_name := u.company.name
  , loaded_at := now
  , updated_at := now }

/-- `load_users_with_timestamp` of `02_incremental_load.py`. -/
def load_users_with_timestamp (now : String)
    (http : HttpRequest → HttpResponse (List User)) :
    List HttpRequest × Except Nat (List TimedUserRow) :=
  let req : HttpRequest := ⟨Method.GET, usersURL⟩
  let resp := http req
  ([req],
    match raise_for_status resp.status with
    | .error e => .error e
    | .ok _ => .ok (resp.body.map (timedUserRow now)))

/-! ### `bigquery_pipeline.py`: extractors -/

/-- The flat row yielded by `load_users` of `bigquery_pipeline.py`.
The script applies Python `float()` to `lat`/`lng`; the digit strings are
kept here, no property depending on the parsed numeric value. -/
structure BQUserRow where
  user_id : Int
  name : String
  username : String
  email : String
  phone : String
  website : String
  city : String
  zipcode : String
  latitude : String
  longitude : String
  company_name : String
  loaded_at : String
deriving Repr, DecidableEq

/-- The reshaping of one user inside `bigquery_pipeline.py`'s `load_users`. -/
def bqUserRow (now : String) (u : User) : BQUserRow :=
  { user_id := u.id
  , name := u.name
  , username := u.username
  , email := u.email
  , phone := u.phone
  , website := u.website
  , city := u.address.city
  , zipcode := u.address.zipcode
  , latitude := u.address.geo.lat
  , longitude := u.address.geo.lng
  , company_name := u.company.name
  , loaded_at := now }

/-- `load_users` of `bigquery_pipeline.py`. -/
def bq_load_users (now : String)
    (http : HttpRequest → HttpResponse (List User)) :
    List HttpRequest × Except Nat (List BQUserRow) :=
  let req : HttpRequest := ⟨Method.GET, usersURL⟩
  let resp := http req
  ([req],
    match raise_for_status resp.status with
    | .error e => .error e
    | .ok _ => .ok (resp.body.map (bqUserRow now)))

/-- The flat row yielded by `load_posts` of `bigquery_pipeline.py`. -/
structure BQPostRow where
  post_id : Int
  user_id : Int
  title : String
  body : String
  title_length : Nat
  body_length : Nat
  loaded_at : String
deriving Repr, DecidableEq

/-- The reshaping of one post inside `bigquery_pipeline.py`'s `load_posts`
(lines 146-154): `title_length = len(post['title'])`,
`body_length = len(post['body'])`. -/
def bqPostRow (now : String) (p : Post) : BQPostRow :=
  { post_id := p.id
  , user_id := p.userId
  , title := p.title
  , body := p.body
  , title_length := p.title.length
  , body_length := p.body.length
  , loaded_at := now }

/-- `load_posts` of `bigquery_pipeline.py`. -/
def bq_load_posts (now : String)
    (http : HttpRequest → HttpResponse (List Post)) :
    List HttpRequest × Except Nat (List BQPostRow) :=
  let req : HttpRequest := ⟨Method.GET, postsURL⟩
  let resp := http req
  ([req],
    match raise_for_status resp.status with
    | .error e => .error e
    | .ok _ => .ok (resp.body.map (bqPostRow now)))

/-! ### `bigquery_pipeline.py`: configuration and main control flow -/

/-- The process environment: a partial map from variable names to values. -/
def Env : Type := String → Option String

/-- Python `os.getenv(key, default)`. -/
def getenv (env : Env) (key dflt : String) : String :=
  (env key).getD dflt

/-- `BIGQUERY_CREDENTIALS` (`bigquery_pipeline.py` line 22). -/
def BIGQUERY_CREDENTIALS (env : Env) : String :=
  getenv env "BIGQUERY_CREDENTIALS_PATH" "./phase3_warehouses/credentials/bigquery-key.json"

/-- `BIGQUERY_PROJECT_ID` (line 23). -/
def BIGQUERY_PROJECT_ID (env : Env) : String :=
  getenv env "BIGQUERY_PROJECT_ID" "your-project-id"

/-- `BIGQUERY_DATASET` (line 24). -/
def BIGQUERY_DATASET (env : Env) : String :=
  getenv env "BIGQUERY_DATASET" "api_ingestion"

/-- The argument of `dlt.destinations.bigquery(credentials=..., location="US")`. -/
structure BigQueryDestination where
  credentials : String
  location : String
deriving Repr, DecidableEq

/-- The configuration `run_bigquery_pipeline` passes to `dlt.pipeline`
(lines 178-185). -/
structure PipelineConfig where
  pipeline_name : String
  destination : BigQueryDestination
  dataset_name : String
deriving Repr, DecidableEq

/-- The pipeline configuration built inside `run_bigquery_pipeline`:
the destination connection handed to `pipeline.run`. -/
def bq_pipeline_config (env : Env) : PipelineConfig :=
  { pipeline_name := "jsonplaceholder_to_bigquery"
  , destination :=
      { credentials := BIGQUERY_CREDENTIALS env
      , location := "US" }
  , dataset_name := BIGQUERY_DATASET env }

/-- `check_bigquery_setup` (lines 27-97): `checks_passed` starts `True`,
is cleared when `Path(BIGQUERY_CREDENTIALS).exists()` fails and when
`BIGQUERY_PROJECT_ID == 'your-project-id'`, and is returned.
`fileExists` models the filesystem's `Path(...).exists()`. -/
def check_bigquery_setup (fileExists : String → Bool) (env : Env) : Bool :=
  fileExists (BIGQUERY_CREDENTIALS env)
    && !(BIGQUERY_PROJECT_ID env == "your-project-id")

/-- A Python exception derived from `Exception` (the class caught by
`except Exception as e`), carrying its message. -/
structure PyException where
  message : String
deriving Repr, DecidableEq

/-- The visible steps of `main` in `bigquery_pipeline.py`. -/
inductive MainAction where
  | checkSetup
  | showFeatures
  | showCost
  | runPipeline
  | printSuccess
  | printTroubleshooting
deriving Repr, DecidableEq

/-- The `try/except` around `run_bigquery_pipeline()` in `main`
(lines 332-349): on success the SUCCESS banner is printed, on any
`Exception` the generic troubleshooting message is printed and control
falls off the end of `main`.  The second component is the exception
`main` propagates to its caller: it is `.ok ()` in both branches. -/
def main_run_section (runResult : Except PyException PipelineConfig) :
    List MainAction × Except PyException Unit :=
  match runResult with
  | .ok _ => ([.runPipeline, .printSuccess], .ok ())
  | .error _ => ([.runPipeline, .printTroubleshooting], .ok ())

/-- `main` of `bigquery_pipeline.py` (lines 313-349), as the list of steps
it performs and what it propagates: the setup check, then — only when the
check passes — the feature/cost sections and the guarded pipeline run.
`runResult` is the outcome `run_bigquery_pipeline()` would produce. -/
def bq_main (fileExists : String → Bool) (env : Env)
    (runResult : Except PyException PipelineConfig) :
    List MainAction × Except PyException Unit :=
  if check_bigquery_setup fileExists env then
    let s := main_run_section runResult
    (MainAction.checkSetup :: MainAction.showFeatures :: MainAction.showCost :: s.1, s.2)
  else
    ([MainAction.checkSetup], .ok ())

/-! ### Sample data (used by the concrete witnesses) -/

/-- A concrete user in the JSONPlaceholder shape. -/
def sampleUser : User :=
  { id := 1
  , name := "Leanne Graham"
  , username := "Bret"
  , email := "Sincere@april.biz"
  , phone := "1-770-736-8031"
  , website := "hildegard.org"
  , address :=
      { street := "Kulas Light"
      , suite := "Apt. 556"
      , city := "Gwenborough"
      , zipcode := "92998-3874"
      , geo := { lat := "-37.3159", lng := "81.1496" } }
  , company :=
      { name := "Romaguera-Crona"
      , catchPhrase := "Multi-layered client-server neural-net"
      , bs := "harness real-time e-markets" } }

/-- Concrete posts in the JSONPlaceholder shape. -/
def samplePosts : List Post :=
  [ { id := 1, userId := 1, title := "first title", body := "first body" }
  , { id := 2, userId := 1, title := "second title", body := "second body" }
  , { id := 3, userId := 2, title := "third title", body := "third body" } ]

/-- An HTTP oracle answering every request with status 200 and the sample
posts. -/
def postsOracle : HttpRequest → HttpResponse (List Post) :=
  fun _ => { status := 200, body := samplePosts }

/-- An HTTP oracle answering every request with status 200 and the sample
user. -/
def usersOracle : HttpRequest → HttpResponse (List User) :=
  fun _ => { status := 200, body := [sampleUser] }

/-! ### Helper lemmas -/

theorem foldl_max_init_le (xs : List Int) (a : Int) : a ≤ xs.foldl max a := by
  induction xs generalizing a with
  | nil => simp
  | cons x xs ih =>
      calc a ≤ max a x := le_max_left a x
        _ ≤ (x :: xs).foldl max a := by simpa using ih (max a x)

theorem le_foldl_max_of_mem {x : Int} (xs : List Int) (a : Int)
    (hx : x ∈ xs) : x ≤ xs.foldl max a := by
  induction xs generalizing a with
  | nil => cases hx
  | cons y ys ih =>
      rcases List.mem_cons.mp hx with h | h
      · subst h
        calc x ≤ max a x := le_max_right a x
          _ ≤ ys.foldl max (max a x) := foldl_max_init_le ys (max a x)
          _ = (x :: ys).foldl max a := by simp
      · simpa using ih (max a y) h

theorem foldl_max_mem (xs : List Int) (a : Int) :
    xs.foldl max a = a ∨ xs.foldl max a ∈ xs := by
  induction xs generalizing a with
  | nil => simp
  | cons y ys ih =>
      rcases ih (max a y) with h | h
      · rcases max_cases a y with ⟨hm, _⟩ | ⟨hm, _⟩
        · left
          simpa [hm] using h
        · right
          rw [List.foldl_cons, h, hm]
          exact List.mem_cons_self y ys
      · right
        simpa using Or.inr h

/-- A 2xx status is outside the `raise_for_status` error range. -/
theorem raise_for_status_of_2xx {s : Nat} (h : is2xx s) :
    raise_for_status s = .ok () := by
  obtain ⟨_, h2⟩ := h
  unfold raise_for_status
  rw [if_neg]
  omega

/-! ### Claims -/

/-- C1: for every list of posts returned by the API and every stored cursor
value `last_value`, `load_posts_incremental` yields exactly those posts
whose identifier strictly exceeds `last_value` (the filter
`id > last_value`), each reshaped into a flat row, and yields no post whose
identifier is less than or equal to `last_value`. -/
theorem c1_incremental_filter (last : Int) (now : String)
    (http : HttpRequest → HttpResponse (List Post))
    (h2xx : is2xx (http ⟨Method.GET, postsURL⟩).status) :
    ∃ rows,
      (load_posts_incremental last now http).2 = Except.ok rows ∧
      rows = ((http ⟨Method.GET, postsURL⟩).body.filter
                (fun p => last < p.id)).map (incPostRow now) ∧
      (∀ p ∈ (http ⟨Method.GET, postsURL⟩).body, last < p.id →
        incPostRow now p ∈ rows) ∧
      (∀ r ∈ rows, ¬ r.post_id ≤ last) := by
  have hs := raise_for_status_of_2xx h2xx
  refine ⟨((http ⟨Method.GET, postsURL⟩).body.filter
                (fun p => last < p.id)).map (incPostRow now), ?_, rfl, ?_, ?_⟩
  · simp [load_posts_incremental, hs]
  · intro p hp hlt
    exact List.mem_map_of_mem _ (List.mem_filter.mpr ⟨hp, by simpa using hlt⟩)
  · intro r hr
    rcases List.mem_map.mp hr with ⟨p, hp, rfl⟩
    have := (List.mem_filter.mp hp).2
    simp only [incPostRow, not_le]
    simpa using this

/-- C1 witness: applying `c1_incremental_filter` at cursor 1 over the sample
posts. -/
theorem c1_incremental_filter_witness :
    is2xx (postsOracle ⟨Method.GET, postsURL⟩).status ∧
    ∃ rows,
      (load_posts_incremental 1 "t0" postsOracle).2 = Except.ok rows ∧
      rows = ((postsOracle ⟨Method.GET, postsURL⟩).body.filter
                (fun p => (1 : Int) < p.id)).map (incPostRow "t0") ∧
      (∀ p ∈ (postsOracle ⟨Method.GET, postsURL⟩).body, (1 : Int) < p.id →
        incPostRow "t0" p ∈ rows) ∧
      (∀ r ∈ rows, ¬ r.post_id ≤ 1) :=
  ⟨by decide, c1_incremental_filter 1 "t0" postsOracle (by decide)⟩

/-- The advanced cursor over the rows of one incremental run, written as a
`foldl max` over the identifiers of the retained posts. -/
theorem advanceCursor_eq_foldl (last : Int) (now : String) (posts : List Post) :
    advanceCursor last ((posts.filter (fun p => last < p.id)).map (incPostRow now))
      = ((posts.filter (fun p => last < p.id)).map (fun p => p.id)).foldl max last := by
  simp [advanceCursor, List.foldl_map, incPostRow]

/-- Every identifier in the input is bounded by the advanced cursor. -/
theorem id_le_advanceCursor (last : Int) (now : String) (posts : List Post) :
    ∀ p ∈ posts,
      p.id ≤ advanceCursor last
        ((posts.filter (fun p => last < p.id)).map (incPostRow now)) := by
  intro p hp
  rw [advanceCursor_eq_foldl]
  by_cases hc : last < p.id
  · exact le_foldl_max_of_mem _ _
      (List.mem_map_of_mem _ (List.mem_filter.mpr ⟨hp, by simpa using hc⟩))
  · push_neg at hc
    exact hc.trans (foldl_max_init_le _ _)

/-- When the run yields at least one row, the advanced cursor is one of the
input identifiers. -/
theorem advanceCursor_mem (last : Int) (now : String) (posts : List Post)
    (hne : (posts.filter (fun p => last < p.id)).map (incPostRow now) ≠ []) :
    ∃ p ∈ posts,
      p.id = advanceCursor last
        ((posts.filter (fun p => last < p.id)).map (incPostRow now)) := by
  rw [advanceCursor_eq_foldl]
  have hidsne : (posts.filter (fun p => last < p.id)).map (fun p => p.id) ≠ [] := by
    simpa using hne
  rcases foldl_max_mem ((posts.filter (fun p => last < p.id)).map (fun p => p.id)) last
    with h | h
  · exfalso
    obtain ⟨x, hx⟩ := List.exists_mem_of_ne_nil _ hidsne
    rcases List.mem_map.mp hx with ⟨q, hqf, rfl⟩
    have h1 : last < q.id := by simpa using (List.mem_filter.mp hqf).2
    have h2 := le_foldl_max_of_mem
      ((posts.filter (fun p => last < p.id)).map (fun p => p.id)) last hx
    rw [h] at h2
    omega
  · rcases List.mem_map.mp h with ⟨q, hqf, hqx⟩
    exact ⟨q, (List.mem_filter.mp hqf).1, hqx⟩

/-- C2: after a run of `load_posts_incremental`, the stored high-water mark
equals the maximum identifier seen in that run (when the run yielded
anything), and a second run of the resource over the unchanged posts yields
zero records. -/
theorem c2_second_run_empty (last : Int) (now now2 : String)
    (http : HttpRequest → HttpResponse (List Post))
    (h2xx : is2xx (http ⟨Method.GET, postsURL⟩).status) :
    ∃ rows,
      (load_posts_incremental last now http).2 = Except.ok rows ∧
      (rows ≠ [] →
        (∀ p ∈ (http ⟨Method.GET, postsURL⟩).body, p.id ≤ advanceCursor last rows) ∧
        ∃ p ∈ (http ⟨Method.GET, postsURL⟩).body, p.id = advanceCursor last rows) ∧
      (load_posts_incremental (advanceCursor last rows) now2 http).2 = Except.ok [] := by
  have hs := raise_for_status_of_2xx h2xx
  refine ⟨((http ⟨Method.GET, postsURL⟩).body.filter
            (fun p => last < p.id)).map (incPostRow now), ?_, ?_, ?_⟩
  · simp [load_posts_incremental, hs]
  · intro hne
    exact ⟨id_le_advanceCursor last now _,
      advanceCursor_mem last now _ hne⟩
  · have hnil : (http ⟨Method.GET, postsURL⟩).body.filter
        (fun p => advanceCursor last
          (((http ⟨Method.GET, postsURL⟩).body.filter
            (fun p => last < p.id)).map (incPostRow now)) < p.id) = [] := by
      rw [List.filter_eq_nil_iff]
      intro p hp
      have := id_le_advanceCursor last now (http ⟨Method.GET, postsURL⟩).body p hp
      simpa using not_lt.mpr this
    simp [load_posts_incremental, hs, hnil]

/-- C2 witness: applying `c2_second_run_empty` at cursor 0 over the sample
posts. -/
theorem c2_second_run_empty_witness :
    is2xx (postsOracle ⟨Method.GET, postsURL⟩).status ∧
    ∃ rows,
      (load_posts_incremental 0 "t0" postsOracle).2 = Except.ok rows ∧
      (rows ≠ [] →
        (∀ p ∈ (postsOracle ⟨Method.GET, postsURL⟩).body, p.id ≤ advanceCursor 0 rows) ∧
        ∃ p ∈ (postsOracle ⟨Method.GET, postsURL⟩).body, p.id = advanceCursor 0 rows) ∧
      (load_posts_incremental (advanceCursor 0 rows) "t1" postsOracle).2 = Except.ok [] :=
  ⟨by decide, c2_second_run_empty 0 "t0" "t1" postsOracle (by decide)⟩

/-- An HTTP oracle answering with a 304 Not Modified and the sample user. -/
def usersOracle304 : HttpRequest → HttpResponse (List User) :=
  fun _ => { status := 304, body := [sampleUser] }

/-- An HTTP oracle answering with a 500 server error and an empty body. -/
def usersOracle500 : HttpRequest → HttpResponse (List User) :=
  fun _ => { status := 500, body := [] }

/-- `raise_for_status` raises inside the 4xx/5xx range. -/
theorem raise_for_status_raises {s : Nat} (h : raisesOn s) :
    raise_for_status s = .error s := by
  unfold raisesOn at h
  unfold raise_for_status
  rw [if_pos h]

/-- `raise_for_status` passes outside the 4xx/5xx range. -/
theorem raise_for_status_passes {s : Nat} (h : ¬ raisesOn s) :
    raise_for_status s = .ok () := by
  unfold raisesOn at h
  unfold raise_for_status
  rw [if_neg h]

/-- C3 counterexample: the claim "if the response status is not 2xx the
function raises an exception and yields no records" fails on the code: on a
304 Not Modified response, `raise_for_status` does not raise (it raises
only for 4xx/5xx) and `load_users` yields its records. -/
theorem c3_counterexample :
    ¬ is2xx (usersOracle304 ⟨Method.GET, usersURL⟩).status ∧
    (load_users usersOracle304).2 = Except.ok [flattenUser sampleUser] := by
  constructor
  · decide
  · rfl

/-- C3 amended: each extractor raises exactly when the response status is a
client or server error (4xx/5xx, i.e. in `[400, 600)`), yielding no
records then; for any other status it yields the reshaped records. -/
theorem c3_raise_on_4xx_5xx (last : Int) (now : String)
    (hu : HttpRequest → HttpResponse (List User))
    (hp : HttpRequest → HttpResponse (List Post))
    (hb : HttpRequest → HttpResponse (List User)) :
    (raisesOn (hu ⟨Method.GET, usersURL⟩).status →
      (load_users hu).2 = Except.error (hu ⟨Method.GET, usersURL⟩).status) ∧
    (¬ raisesOn (hu ⟨Method.GET, usersURL⟩).status →
      (load_users hu).2 =
        Except.ok ((hu ⟨Method.GET, usersURL⟩).body.map flattenUser)) ∧
    (raisesOn (hp ⟨Method.GET, postsURL⟩).status →
      (load_posts_incremental last now hp).2 =
        Except.error (hp ⟨Method.GET, postsURL⟩).status) ∧
    (¬ raisesOn (hp ⟨Method.GET, postsURL⟩).status →
      (load_posts_incremental last now hp).2 =
        Except.ok (((hp ⟨Method.GET, postsURL⟩).body.filter
          (fun p => last < p.id)).map (incPostRow now))) ∧
    (raisesOn (hb ⟨Method.GET, usersURL⟩).status →
      (bq_load_users now hb).2 = Except.error (hb ⟨Method.GET, usersURL⟩).status) ∧
    (¬ raisesOn (hb ⟨Method.GET, usersURL⟩).status →
      (bq_load_users now hb).2 =
        Except.ok ((hb ⟨Method.GET, usersURL⟩).body.map (bqUserRow now))) := by
  refine ⟨fun h => ?_, fun h => ?_, fun h => ?_, fun h => ?_, fun h => ?_, fun h => ?_⟩
  · simp [load_users, raise_for_status_raises h]
  · simp [load_users, raise_for_status_passes h]
  · simp [load_posts_incremental, raise_for_status_raises h]
  · simp [load_posts_incremental, raise_for_status_passes h]
  · simp [bq_load_users, raise_for_status_raises h]
  · simp [bq_load_users, raise_for_status_passes h]

/-- C3 witness: applying `c3_raise_on_4xx_5xx` at a 500 response for the
users endpoint and a 200 response for the posts endpoint. -/
theorem c3_raise_on_4xx_5xx_witness :
    (load_users usersOracle500).2 =
      Except.error ((usersOracle500 ⟨Method.GET, usersURL⟩).status) ∧
    (load_posts_incremental 0 "t0" postsOracle).2 =
      Except.ok (((postsOracle ⟨Method.GET, postsURL⟩).body.filter
        (fun p => (0 : Int) < p.id)).map (incPostRow "t0")) :=
  ⟨(c3_raise_on_4xx_5xx 0 "t0" usersOracle500 postsOracle usersOracle).1 (by decide),
   (c3_raise_on_4xx_5xx 0 "t0" usersOracle500 postsOracle usersOracle).2.2.2.1 (by decide)⟩

/-- C4: every `Exception` raised inside `run_bigquery_pipeline` is caught by
`main`'s catch-all: `main` propagates nothing (its exception component is
`.ok ()` for every exception), and when the setup check let the run happen,
the run is followed by the troubleshooting print, not the success banner. -/
theorem c4_main_catch_all (fileExists : String → Bool) (env : Env)
    (e : PyException) :
    (bq_main fileExists env (Except.error e)).2 = Except.ok () ∧
    (check_bigquery_setup fileExists env = true →
      bq_main fileExists env (Except.error e) =
        ([MainAction.checkSetup, MainAction.showFeatures, MainAction.showCost,
          MainAction.runPipeline, MainAction.printTroubleshooting], Except.ok ())) := by
  constructor
  · by_cases hchk : check_bigquery_setup fileExists env = true
    · simp [bq_main, hchk, main_run_section]
    · simp [bq_main, hchk]
  · intro hchk
    simp [bq_main, hchk, main_run_section]

/-- A filesystem oracle on which every path exists. -/
def fileExistsAlways : String → Bool := fun _ => true

/-- An environment that sets only `BIGQUERY_PROJECT_ID`. -/
def envConfigured : Env :=
  fun k => if k = "BIGQUERY_PROJECT_ID" then some "data-eng-proj" else none

/-- C4 witness: applying `c4_main_catch_all` to a configured setup and a
concrete exception. -/
theorem c4_main_catch_all_witness :
    (bq_main fileExistsAlways envConfigured
        (Except.error ⟨"403 Access Denied"⟩)).2 = Except.ok () ∧
    bq_main fileExistsAlways envConfigured (Except.error ⟨"403 Access Denied"⟩) =
      ([MainAction.checkSetup, MainAction.showFeatures, MainAction.showCost,
        MainAction.runPipeline, MainAction.printTroubleshooting], Except.ok ()) :=
  ⟨(c4_main_catch_all fileExistsAlways envConfigured ⟨"403 Access Denied"⟩).1,
   (c4_main_catch_all fileExistsAlways envConfigured ⟨"403 Access Denied"⟩).2 (by decide)⟩

/-- C5: every HTTP request issued by the six extractor functions of the
three scripts is a GET, and its URL is one of the two fixed JSONPlaceholder
endpoints (the users list and the posts list). -/
theorem c5_only_two_endpoints (last : Int) (now : String)
    (hu1 : HttpRequest → HttpResponse (List User))
    (hp1 : HttpRequest → HttpResponse (List Post))
    (hp2 : HttpRequest → HttpResponse (List Post))
    (hu2 : HttpRequest → HttpResponse (List User))
    (hu3 : HttpRequest → HttpResponse (List User))
    (hp3 : HttpRequest → HttpResponse (List Post)) :
    ∀ r ∈ (load_users hu1).1 ++ (load_posts hp1).1
        ++ (load_posts_incremental last now hp2).1
        ++ (load_users_with_timestamp now hu2).1
        ++ (bq_load_users now hu3).1 ++ (bq_load_posts now hp3).1,
      r.method = Method.GET ∧ (r.url = usersURL ∨ r.url = postsURL) := by
  intro r hr
  simp only [load_users, load_posts, load_posts_incremental,
    load_users_with_timestamp, bq_load_users, bq_load_posts,
    List.mem_append, List.mem_singleton] at hr
  rcases hr with ((((rfl | rfl) | rfl) | rfl) | rfl) | rfl
  all_goals simp

/-- C5 witness: the request of `load_users` under a concrete oracle is a
GET to one of the two endpoints. -/
theorem c5_only_two_endpoints_witness :
    (⟨Method.GET, usersURL⟩ : HttpRequest).method = Method.GET ∧
    ((⟨Method.GET, usersURL⟩ : HttpRequest).url = usersURL ∨
     (⟨Method.GET, usersURL⟩ : HttpRequest).url = postsURL) :=
  c5_only_two_endpoints 0 "t0" usersOracle postsOracle postsOracle
    usersOracle usersOracle postsOracle ⟨Method.GET, usersURL⟩ (by decide)

/-- C6: on a successful response, `load_users` of `01_simple_pipeline.py`
yields exactly one flat record per input user, in input order, whose fields
are the projections of the nested JSON: in particular `city` is
`user.address.city`, `latitude` is `user.address.geo.lat` and
`company_name` is `user.company.name`. -/
theorem c6_load_users_flat (http : HttpRequest → HttpResponse (List User))
    (h2xx : is2xx (http ⟨Method.GET, usersURL⟩).status) :
    ∃ rows,
      (load_users http).2 = Except.ok rows ∧
      rows.length = (http ⟨Method.GET, usersURL⟩).body.length ∧
      ∀ i (hi : i < rows.length)
          (hj : i < (http ⟨Method.GET, usersURL⟩).body.length),
        rows.get ⟨i, hi⟩ =
          flattenUser ((http ⟨Method.GET, usersURL⟩).body.get ⟨i, hj⟩) ∧
        (rows.get ⟨i, hi⟩).user_id =
          ((http ⟨Method.GET, usersURL⟩).body.get ⟨i, hj⟩).id ∧
        (rows.get ⟨i, hi⟩).city =
          ((http ⟨Method.GET, usersURL⟩).body.get ⟨i, hj⟩).address.city ∧
        (rows.get ⟨i, hi⟩).latitude =
          ((http ⟨Method.GET, usersURL⟩).body.get ⟨i, hj⟩).address.geo.lat ∧
        (rows.get ⟨i, hi⟩).company_name =
          ((http ⟨Method.GET, usersURL⟩).body.get ⟨i, hj⟩).company.name := by
  have hs := raise_for_status_of_2xx h2xx
  refine ⟨(http ⟨Method.GET, usersURL⟩).body.map flattenUser, ?_, by simp, ?_⟩
  · simp [load_users, hs]
  · intro i hi hj
    have hget : ((http ⟨Method.GET, usersURL⟩).body.map flattenUser).get ⟨i, hi⟩ =
        flattenUser ((http ⟨Method.GET, usersURL⟩).body.get ⟨i, hj⟩) := by
      simp
    refine ⟨hget, ?_, ?_, ?_, ?_⟩ <;> rw [hget] <;> rfl

/-- C6 witness: applying `c6_load_users_flat` to a 200 response carrying the
sample user. -/
theorem c6_load_users_flat_witness :
    is2xx (usersOracle ⟨Method.GET, usersURL⟩).status ∧
    ∃ rows,
      (load_users usersOracle).2 = Except.ok rows ∧
      rows.length = (usersOracle ⟨Method.GET, usersURL⟩).body.length ∧
      ∀ i (hi : i < rows.length)
          (hj : i < (usersOracle ⟨Method.GET, usersURL⟩).body.length),
        rows.get ⟨i, hi⟩ =
          flattenUser ((usersOracle ⟨Method.GET, usersURL⟩).body.get ⟨i, hj⟩) ∧
        (rows.get ⟨i, hi⟩).user_id =
          ((usersOracle ⟨Method.GET, usersURL⟩).body.get ⟨i, hj⟩).id ∧
        (rows.get ⟨i, hi⟩).city =
          ((usersOracle ⟨Method.GET, usersURL⟩).body.get ⟨i, hj⟩).address.city ∧
        (rows.get ⟨i, hi⟩).latitude =
          ((usersOracle ⟨Method.GET, usersURL⟩).body.get ⟨i, hj⟩).address.geo.lat ∧
        (rows.get ⟨i, hi⟩).company_name =
          ((usersOracle ⟨Method.GET, usersURL⟩).body.get ⟨i, hj⟩).company.name :=
  ⟨by decide, c6_load_users_flat usersOracle (by decide)⟩

/-- An environment setting `BIGQUERY_PROJECT_ID` like `envConfigured` but
with an extra unrelated variable. -/
def envConfigured2 : Env :=
  fun k =>
    if k = "BIGQUERY_PROJECT_ID" then some "data-eng-proj"
    else if k = "HOME" then some "/home/etl" else none

/-- C7: the BigQuery pipeline is configured from the environment variables
`BIGQUERY_CREDENTIALS_PATH`, `BIGQUERY_PROJECT_ID` and `BIGQUERY_DATASET`,
each with its fixed default when unset, and those values determine the
destination connection handed to `pipeline.run`: the destination carries
the credential file path, the dataset name comes from `BIGQUERY_DATASET`,
and any two environments agreeing on the three variables produce the same
pipeline configuration. -/
theorem c7_bigquery_env_config (env : Env) :
    (bq_pipeline_config env).destination.credentials = BIGQUERY_CREDENTIALS env ∧
    (bq_pipeline_config env).destination.location = "US" ∧
    (bq_pipeline_config env).dataset_name = BIGQUERY_DATASET env ∧
    BIGQUERY_CREDENTIALS (fun _ => none) =
      "./phase3_warehouses/credentials/bigquery-key.json" ∧
    BIGQUERY_PROJECT_ID (fun _ => none) = "your-project-id" ∧
    BIGQUERY_DATASET (fun _ => none) = "api_ingestion" ∧
    (∀ env2 : Env,
      BIGQUERY_CREDENTIALS env = BIGQUERY_CREDENTIALS env2 →
      BIGQUERY_PROJECT_ID env = BIGQUERY_PROJECT_ID env2 →
      BIGQUERY_DATASET env = BIGQUERY_DATASET env2 →
      bq_pipeline_config env = bq_pipeline_config env2) := by
  refine ⟨rfl, rfl, rfl, rfl, rfl, rfl, ?_⟩
  intro env2 h1 _ h3
  simp [bq_pipeline_config, h1, h3]

/-- C7 witness: two concrete environments agreeing on the three BigQuery
variables give the same pipeline configuration. -/
theorem c7_bigquery_env_config_witness :
    bq_pipeline_config envConfigured = bq_pipeline_config envConfigured2 :=
  (c7_bigquery_env_config envConfigured).2.2.2.2.2.2 envConfigured2
    (by decide) (by decide) (by decide)

/-- A filesystem oracle on which no path exists. -/
def fileExistsNever : String → Bool := fun _ => false

/-- The empty environment: every BigQuery variable falls back to its
default, so `BIGQUERY_PROJECT_ID` is the placeholder. -/
def envEmpty : Env := fun _ => none

/-- C9: when the credentials file does not exist or the project ID is the
placeholder `your-project-id`, `check_bigquery_setup` returns `false` and
`main` returns early after the setup check, never invoking
`run_bigquery_pipeline`. -/
theorem c9_setup_gate (fileExists : String → Bool) (env : Env)
    (r : Except PyException PipelineConfig)
    (h : fileExists (BIGQUERY_CREDENTIALS env) = false ∨
         BIGQUERY_PROJECT_ID env = "your-project-id") :
    check_bigquery_setup fileExists env = false ∧
    bq_main fileExists env r = ([MainAction.checkSetup], Except.ok ()) ∧
    MainAction.runPipeline ∉ (bq_main fileExists env r).1 := by
  have hc : check_bigquery_setup fileExists env = false := by
    unfold check_bigquery_setup
    rcases h with h | h
    · simp [h]
    · simp [h]
  refine ⟨hc, by simp [bq_main, hc], ?_⟩
  simp [bq_main, hc]

/-- C9 witness: applying `c9_setup_gate` to the empty environment, where
the project ID defaults to the placeholder. -/
theorem c9_setup_gate_witness :
    check_bigquery_setup fileExistsNever envEmpty = false ∧
    bq_main fileExistsNever envEmpty (Except.error ⟨"unreached"⟩) =
      ([MainAction.checkSetup], Except.ok ()) ∧
    MainAction.runPipeline ∉
      (bq_main fileExistsNever envEmpty (Except.error ⟨"unreached"⟩)).1 :=
  c9_setup_gate fileExistsNever envEmpty (Except.error ⟨"unreached"⟩)
    (Or.inr (by decide))

/-- C10: on a successful response, every record yielded by the BigQuery
pipeline's `load_posts` has `title_length` equal to the length of its
`title` field and `body_length` equal to the length of its `body` field,
and its `post_id` equals the `id` of the source record at the same
position. -/
theorem c10_bq_post_lengths (now : String)
    (http : HttpRequest → HttpResponse (List Post))
    (h2xx : is2xx (http ⟨Method.GET, postsURL⟩).status) :
    ∃ rows,
      (bq_load_posts now http).2 = Except.ok rows ∧
      (∀ r ∈ rows,
        r.title_length = r.title.length ∧ r.body_length = r.body.length) ∧
      rows.length = (http ⟨Method.GET, postsURL⟩).body.length ∧
      ∀ i (hi : i < rows.length)
          (hj : i < (http ⟨Method.GET, postsURL⟩).body.length),
        (rows.get ⟨i, hi⟩).post_id =
          ((http ⟨Method.GET, postsURL⟩).body.get ⟨i, hj⟩).id := by
  have hs := raise_for_status_of_2xx h2xx
  refine ⟨(http ⟨Method.GET, postsURL⟩).body.map (bqPostRow now), ?_, ?_, by simp, ?_⟩
  · simp [bq_load_posts, hs]
  · intro r hr
    rcases List.mem_map.mp hr with ⟨p, _, rfl⟩
    exact ⟨rfl, rfl⟩
  · intro i hi hj
    have hget : ((http ⟨Method.GET, postsURL⟩).body.map (bqPostRow now)).get ⟨i, hi⟩ =
        bqPostRow now ((http ⟨Method.GET, postsURL⟩).body.get ⟨i, hj⟩) := by
      simp
    rw [hget]
    rfl

/-- C10 witness: applying `c10_bq_post_lengths` to a 200 response carrying
the sample posts. -/
theorem c10_bq_post_lengths_witness :
    is2xx (postsOracle ⟨Method.GET, postsURL⟩).status ∧
    ∃ rows,
      (bq_load_posts "t0" postsOracle).2 = Except.ok rows ∧
      (∀ r ∈ rows,
        r.title_length = r.title.length ∧ r.body_length = r.body.length) ∧
      rows.length = (postsOracle ⟨Method.GET, postsURL⟩).body.length ∧
      ∀ i (hi : i < rows.length)
          (hj : i < (postsOracle ⟨Method.GET, postsURL⟩).body.length),
        (rows.get ⟨i, hi⟩).post_id =
          ((postsOracle ⟨Method.GET, postsURL⟩).body.get ⟨i, hj⟩).id :=
  ⟨by decide, c10_bq_post_lengths "t0" postsOracle (by decide)⟩

end Ingest
